import Mathlib

/-!
Shallow embedding of `src/App.tsx` (the NotebookComplete order form) and
verification of its specification.

The embedded fragment is the testable logic of the component
`NotebookCompleteApp`: the plan catalog `PLAN_PRICES`, the derived quote
`estimatedPrice`, the validator `validateForm`, and the order-message /
deep-link construction performed by `handleSubmit`.  Rendering, styling and
React state plumbing carry no logic of their own and are not modelled.
-/

namespace NotebookApp

/-- JS `number` values as they can appear in the `pages` field, modelled at the
granularity the program observes: `NaN`, the two infinities, and finite
integral values.  The source compares `pages` only against `1`
(`Number.isNaN(form.pages) || form.pages < 1`) and stringifies it into the
order message; all inputs the claims exercise are integral, so the finite case
carries an `Int`. -/
inductive JSNum where
  | nan : JSNum
  | posInf : JSNum
  | negInf : JSNum
  | int : Int → JSNum
  deriving DecidableEq

/-- JS `<` on the modelled values: any comparison involving `NaN` is `false`,
`-Infinity` is below everything else, `Infinity` above everything else. -/
def JSNum.lt : JSNum → JSNum → Bool
  | .nan, _ => false
  | _, .nan => false
  | .posInf, _ => false
  | .negInf, .negInf => false
  | .negInf, _ => true
  | .int _, .posInf => true
  | .int _, .negInf => false
  | .int a, .int b => a < b

/-- `Number.isNaN` on the modelled values. -/
def JSNum.isNaN : JSNum → Bool
  | .nan => true
  | _ => false

/-- `Number.isFinite` on the modelled values (used only to state the spec's
"finite number" wording; the source itself never calls it). -/
def JSNum.isFinite : JSNum → Bool
  | .int _ => true
  | _ => false

/-- JS number-to-string coercion as used by the template literal
`📄 Pages: ${form.pages}`: `NaN`/`Infinity`/`-Infinity` print their names and
integral values print in decimal, exactly as in JS. -/
def JSNum.render : JSNum → String
  | .nan => "NaN"
  | .posInf => "Infinity"
  | .negInf => "-Infinity"
  | .int n => toString n

/-- The `FormState` record of `App.tsx`.  `file : File | null` is modelled by
the file's display name (`Option String`): the source reads nothing but
`form.file.name`.  `plan` is typed `PlanKey` in TS but erases to a string at
runtime; modelling it as `String` keeps the `?? 199` fallback observable. -/
structure FormState where
  name : String
  phone : String
  college : String
  className : String
  subject : String
  pages : JSNum
  file : Option String
  notes : String
  address : String
  plan : String
  withDiagrams : Bool
  deriving DecidableEq

/-- The `PLAN_PRICES` object literal, as an association list in source order. -/
def PLAN_PRICES : List (String × Nat) :=
  [("Single (₹199)", 199),
   ("3-Month (₹499)", 499),
   ("6-Month (₹999)", 999),
   ("12-Month (₹1999)", 1999)]

/-- `Math.round(b * 1.2)` for a natural base price `b`, computed exactly as the
rational round-half-up `⌊(12b + 5)/10⌋`.  For every base price reachable here
(199, 499, 999, 1999 and the 199 fallback) the IEEE-double computation
`Math.round(b * 1.2)` lands far from a half-integer tie, so the exact rational
rounding and the floating-point one agree. -/
def roundMul1_2 (b : Nat) : Nat := (12 * b + 5) / 10

/-- The `estimatedPrice` memo:
`const basePrice = PLAN_PRICES[form.plan] ?? 199;
 return form.withDiagrams ? Math.round(basePrice * 1.2) : basePrice;`,
with the bracket access modelled as own-property lookup.  This is exact at
the four recognized keys and at every other key that is not an
`Object.prototype` property name; `estimatedPriceJS` below refines it with
full JS property-access semantics, including the prototype chain. -/
def estimatedPrice (f : FormState) : Nat :=
  let basePrice := (PLAN_PRICES.lookup f.plan).getD 199
  if f.withDiagrams then roundMul1_2 basePrice else basePrice

/-- The property names a plain object literal inherits from
`Object.prototype` (the ECMAScript standard members plus the Annex B
accessors present in every mainstream engine).  For these keys
`PLAN_PRICES[key]` yields the inherited member — a non-nullish value — so
the `?? 199` fallback does not fire. -/
def protoProps : List String :=
  ["constructor", "hasOwnProperty", "isPrototypeOf", "propertyIsEnumerable",
   "toLocaleString", "toString", "valueOf", "__proto__",
   "__defineGetter__", "__defineSetter__", "__lookupGetter__",
   "__lookupSetter__"]

/-- The JS values the quote computation can produce once the prototype chain
is taken into account: a number, `NaN`, or the inherited
`Object.prototype` member itself. -/
inductive JSVal where
  | num (n : Nat)
  | nan
  | protoMember
  deriving DecidableEq

/-- `PLAN_PRICES[plan] ?? 199` under full JS property access: an own
property yields its number; a key naming an `Object.prototype` member
yields that inherited non-nullish value (so the fallback does not fire);
any other key reads `undefined` and the fallback yields 199. -/
def basePriceJS (plan : String) : JSVal :=
  match PLAN_PRICES.lookup plan with
  | some n => .num n
  | none => if plan ∈ protoProps then .protoMember else .num 199

/-- The `estimatedPrice` memo under full JS property-access semantics.
When the base value is an inherited function or object,
`Math.round(basePrice * 1.2)` coerces it to `NaN` (its number conversion is
`NaN`), and without diagrams the inherited value itself is returned. -/
def estimatedPriceJS (f : FormState) : JSVal :=
  match basePriceJS f.plan with
  | .num n => if f.withDiagrams then .num (roundMul1_2 n) else .num n
  | v => if f.withDiagrams then .nan else v

/-- The character class trimmed by JS `String.prototype.trim` (WhiteSpace and
LineTerminator code points). -/
def isJSWS (c : Char) : Bool :=
  [0x20, 0x09, 0x0A, 0x0D, 0x0B, 0x0C, 0xA0, 0xFEFF, 0x1680,
      0x2028, 0x2029, 0x202F, 0x205F, 0x3000].contains c.toNat ||
    (0x2000 ≤ c.toNat && c.toNat ≤ 0x200A)

/-- JS `String.prototype.trim`: drop leading and trailing whitespace. -/
def jsTrim (x : String) : String :=
  ⟨((x.data.dropWhile isJSWS).reverse.dropWhile isJSWS).reverse⟩

/-- The test `/^\d{10}$/.test s`: exactly ten ASCII decimal digits
(JS `\d` is ASCII-only). -/
def isTenDigits (s : String) : Bool :=
  s.data.length == 10 && s.data.all Char.isDigit

/-- The `newErrors` record produced by `validateForm`; each field holds the
error message assigned to that key, or `none` when the key is absent. -/
structure Errors where
  name : Option String
  phone : Option String
  pages : Option String
  deriving DecidableEq

/-- `Object.keys(newErrors).length === 0`: no key was assigned. -/
def Errors.isEmpty (e : Errors) : Bool :=
  e.name.isNone && e.phone.isNone && e.pages.isNone

/-- The `validateForm` callback:
`if (!form.name.trim()) newErrors.name = "Name is required.";
 if (!/^\d{10}$/.test(form.phone.trim())) newErrors.phone = "Enter a valid 10-digit phone.";
 if (Number.isNaN(form.pages) || form.pages < 1) newErrors.pages = "Pages must be at least 1.";`. -/
def validateForm (f : FormState) : Errors :=
  { name := if jsTrim f.name = "" then some "Name is required." else none
    phone := if isTenDigits (jsTrim f.phone) then none
             else some "Enter a valid 10-digit phone."
    pages := if f.pages.isNaN || f.pages.lt (.int 1) then
               some "Pages must be at least 1."
             else none }

/-- JS `s || "—"`: the only falsy string is the empty one. -/
def orDash (s : String) : String := if s = "" then "—" else s

/-- `const diagramsMsg = form.withDiagrams ? "YES (+20% markup included)" : "NO (Base price)";`. -/
def diagramsMsg (f : FormState) : String :=
  if f.withDiagrams then "YES (+20% markup included)" else "NO (Base price)"

/-- `const fileMsg = form.file ? ... : ...;` from `handleSubmit`. -/
def fileMsg (f : FormState) : String :=
  match f.file with
  | some n =>
      "📎 File: " ++ n ++
        ". *Please upload this file in our chat after sending this message.*"
  | none =>
      "📎 File: None selected. *Please upload your syllabus/content in our chat.*"

/-- The `msg` template-literal concatenation from `handleSubmit`, with the
literal chunks exactly as they appear between interpolations in the source. -/
def buildMsg (f : FormState) : String :=
  "*NotebookComplete Order*%0A%0A" ++
  "👤 Name: " ++ f.name ++
  "%0A📞 Phone: " ++ f.phone ++
  "%0A 🏠 Address: " ++ orDash f.address ++
  "%0A 🏫 College: " ++ orDash f.college ++
  "%0A📚 Class: " ++ orDash f.className ++
  "%0A📘 Subject: " ++ orDash f.subject ++
  "%0A📄 Pages: " ++ f.pages.render ++
  "%0A🎨 Diagrams/Printouts: " ++ diagramsMsg f ++
  "%0A💰 Plan: " ++ f.plan ++
  "%0A📝 Notes: " ++ orDash f.notes ++
  "%0A💵 Estimated Price: ₹" ++ toString (estimatedPrice f) ++
  "%0A%0A" ++ fileMsg f ++ "%0A%0A" ++
  "Please confirm availability and final quote."

/-- `const whatsappUrl = ` + `https://wa.me/911234567890?text=` + `${msg}`. -/
def whatsappUrl (f : FormState) : String :=
  "https://wa.me/911234567890?text=" ++ buildMsg f

/-- The component state touched by `handleSubmit`: the form, the `errors`
record, the `isSubmitting` flag, and the list of URLs passed to
`window.open` (in call order). -/
structure AppState where
  form : FormState
  errors : Errors
  isSubmitting : Bool
  opened : List String
  deriving DecidableEq

/-- `handleSubmit` as a state transition (`e.preventDefault()` has no model
content).  `validateForm` always stores its freshly computed record in
`errors` and submission proceeds only when that record is empty; on failure
the handler returns before `setIsSubmitting(true)` and `window.open`.  The
`setTimeout` that clears `isSubmitting` one second after a successful submit
is outside the modelled step. -/
def handleSubmit (s : AppState) : AppState :=
  let newErrors := validateForm s.form
  if newErrors.isEmpty then
    { s with errors := newErrors
             isSubmitting := true
             opened := s.opened ++ [whatsappUrl s.form] }
  else
    { s with errors := newErrors }

/-- Hex digit value, as `decodeURIComponent` reads escape digits. -/
def hexVal (c : Char) : Option Nat :=
  let n := c.toNat
  if 48 ≤ n ∧ n ≤ 57 then some (n - 48)
  else if 65 ≤ n ∧ n ≤ 70 then some (n - 55)
  else if 97 ≤ n ∧ n ≤ 102 then some (n - 87)
  else none

/-- `decodeURIComponent` on the ASCII fragment: a `%` escape denoting a byte
below `0x80` decodes to that character, every other character passes through
unchanged, and a malformed escape fails (`URIError` is `none`).  Multi-byte
UTF-8 escape sequences (lead byte ≥ `0x80`) are outside the modelled fragment
and map to `none`; every string this development decodes contains only ASCII
escapes, where this model and `decodeURIComponent` agree. -/
def percentDecodeL : List Char → Option (List Char)
  | [] => some []
  | '%' :: c1 :: c2 :: rest =>
      match hexVal c1, hexVal c2 with
      | some h1, some h2 =>
          if 16 * h1 + h2 < 0x80 then
            (percentDecodeL rest).map (fun r => Char.ofNat (16 * h1 + h2) :: r)
          else none
      | _, _ => none
  | '%' :: _ => none
  | c :: rest => (percentDecodeL rest).map (fun r => c :: r)

/-- `decodeURIComponent` lifted to `String` (on the modelled ASCII fragment). -/
def percentDecode (s : String) : Option String :=
  (percentDecodeL s.data).map String.mk

/-- `l` starts with `t` (character lists). -/
def startsWithL : List Char → List Char → Bool
  | _, [] => true
  | [], _ :: _ => false
  | c :: cs, d :: ds => c == d && startsWithL cs ds

/-- `t` occurs as a contiguous segment of `l` (character lists). -/
def hasSubL : List Char → List Char → Bool
  | [], t => t.isEmpty
  | c :: cs, t => startsWithL (c :: cs) t || hasSubL cs t

/-- Executable substring test: `t` occurs contiguously in `s`. -/
def occursIn (t s : String) : Bool := hasSubL s.data t.data

/-- Propositional substring: `s` decomposes around a contiguous copy of `t`. -/
def HasSub (t s : String) : Prop := ∃ a b : String, s = a ++ t ++ b

/-- Interleave gap strings with token strings:
`glue [g1, …, gn, g'] [t1, …, tn] = g1 ++ t1 ++ … ++ gn ++ tn ++ g'`. -/
def glue : List String → List String → String
  | [], _ => ""
  | g :: _, [] => g
  | g :: gs, t :: ts => g ++ (t ++ glue gs ts)

/-- The tokens of `toks` occur in `s`, disjointly and in the given order. -/
def ContainsInOrder (toks : List String) (s : String) : Prop :=
  ∃ gaps : List String, gaps.length = toks.length + 1 ∧ s = glue gaps toks

/-- The fixed lines of the order message, in the order the spec lists them:
title, name, phone, address, college, class, subject, pages, diagrams status,
plan, notes, quote, file reference, closing call-to-action. -/
def fixedLines : List String :=
  ["*NotebookComplete Order*",
   "👤 Name: ",
   "📞 Phone: ",
   "🏠 Address: ",
   "🏫 College: ",
   "📚 Class: ",
   "📘 Subject: ",
   "📄 Pages: ",
   "🎨 Diagrams/Printouts: ",
   "💰 Plan: ",
   "📝 Notes: ",
   "💵 Estimated Price: ₹",
   "📎 File: ",
   "Please confirm availability and final quote."]

/-- The initial `useState` form value of the component. -/
def initialForm : FormState :=
  { name := ""
    phone := ""
    college := ""
    className := ""
    subject := ""
    pages := .int 1
    file := none
    notes := ""
    address := ""
    plan := "Single (₹199)"
    withDiagrams := false }

/-- The end-to-end scenario form from the spec (claim C8). -/
def asha : FormState :=
  { name := "Asha"
    phone := "9876543210"
    college := "XYZ"
    className := "B.Sc II"
    subject := "Physics"
    pages := .int 5
    file := none
    notes := ""
    address := ""
    plan := "6-Month (₹999)"
    withDiagrams := true }

/-- A form whose `name` and `phone` fields are wrapped in extra whitespace. -/
def padForm (f : FormState) (p s : String) : FormState :=
  { f with name := p ++ f.name ++ s, phone := p ++ f.phone ++ s }

/-- The tail of the file-reference line after its fixed `📎 File: ` label. -/
def fileRest (f : FormState) : String :=
  match f.file with
  | some n => n ++ ". *Please upload this file in our chat after sending this message.*"
  | none => "None selected. *Please upload your syllabus/content in our chat.*"

/-- A form whose name field contains a percent escape (claim C3). -/
def formPct : FormState :=
  { initialForm with name := "A%41", phone := "9876543210" }

/-- The same form with the name the escape decodes to (claim C3). -/
def formAA : FormState :=
  { initialForm with name := "AA", phone := "9876543210" }

/-- A form whose name contains a space (claim C3). -/
def formSpace : FormState :=
  { initialForm with name := "a b", phone := "9876543210" }

/-- A valid form whose pages field is positive infinity (claim C4). -/
def infForm : FormState :=
  { initialForm with name := "X", phone := "9876543210", pages := .posInf }

/-- A component state holding the (invalid) initial form (claim C9). -/
def badState : AppState :=
  { form := initialForm, errors := ⟨none, none, none⟩,
    isSubmitting := false, opened := [] }

/-! Helper lemmas. -/

theorem dropWhile_append_all {p : Char → Bool} {l1 l2 : List Char}
    (h : ∀ c ∈ l1, p c = true) :
    (l1 ++ l2).dropWhile p = l2.dropWhile p := by
  induction l1 with
  | nil => rfl
  | cons c cs ih =>
      have hc : p c = true := h c (List.mem_cons_self c cs)
      simp only [List.cons_append, List.dropWhile_cons, hc, if_true]
      exact ih fun d hd => h d (List.mem_cons_of_mem c hd)

theorem dropWhile_all_nil {p : Char → Bool} {l : List Char}
    (h : ∀ c ∈ l, p c = true) : l.dropWhile p = [] :=
  List.dropWhile_eq_nil_iff.mpr h

theorem trimL_core (x p s : List Char) (hp : ∀ c ∈ p, isJSWS c = true)
    (hs : ∀ c ∈ s, isJSWS c = true) :
    ((p ++ x ++ s).dropWhile isJSWS).reverse.dropWhile isJSWS =
      (x.dropWhile isJSWS).reverse.dropWhile isJSWS := by
  rw [List.append_assoc, dropWhile_append_all hp]
  by_cases hx : x.dropWhile isJSWS = []
  · rw [List.dropWhile_append]
    simp [hx, dropWhile_all_nil hs]
  · rw [List.dropWhile_append]
    have hne : (x.dropWhile isJSWS).isEmpty = false := by
      simp [List.isEmpty_iff, hx]
    simp only [hne, Bool.false_eq_true, if_false]
    rw [List.reverse_append]
    exact dropWhile_append_all fun c hc => hs c (List.mem_reverse.mp hc)

theorem jsTrim_pad (x p s : String) (hp : ∀ c ∈ p.data, isJSWS c = true)
    (hs : ∀ c ∈ s.data, isJSWS c = true) :
    jsTrim (p ++ x ++ s) = jsTrim x := by
  unfold jsTrim
  congr 1
  rw [show (p ++ x ++ s).data = p.data ++ x.data ++ s.data by
    simp [String.data_append]]
  exact congrArg List.reverse (trimL_core x.data p.data s.data hp hs)

/-! Literal-level facts about the fused template chunks. -/

theorem sd_nil : ("" : String).data = ([] : List Char) := rfl

theorem sd_file : ("📎 File: None selected. *Please upload your syllabus/content in our chat.*" : String).data =
    ("📎 File: " : String).data ++
      ("None selected. *Please upload your syllabus/content in our chat.*" : String).data := rfl

theorem fileMsg_data (f : FormState) :
    (fileMsg f).data = ("📎 File: " : String).data ++ (fileRest f).data := by
  cases h : f.file with
  | none => simp [fileMsg, fileRest, h, sd_file]
  | some n => simp [fileMsg, fileRest, h, String.data_append]

/-! The claims. -/

/-- C1: for every recognized plan key, the quote is the plan's base price
without diagrams and `round(basePrice * 1.2)` with diagrams — concretely
199/499/999/1999 without and 239/599/1199/2399 with. -/
theorem C1_quote_per_plan :
    estimatedPrice { initialForm with plan := "Single (₹199)", withDiagrams := false } = 199 ∧
    estimatedPrice { initialForm with plan := "3-Month (₹499)", withDiagrams := false } = 499 ∧
    estimatedPrice { initialForm with plan := "6-Month (₹999)", withDiagrams := false } = 999 ∧
    estimatedPrice { initialForm with plan := "12-Month (₹1999)", withDiagrams := false } = 1999 ∧
    estimatedPrice { initialForm with plan := "Single (₹199)", withDiagrams := true } = 239 ∧
    estimatedPrice { initialForm with plan := "3-Month (₹499)", withDiagrams := true } = 599 ∧
    estimatedPrice { initialForm with plan := "6-Month (₹999)", withDiagrams := true } = 1199 ∧
    estimatedPrice { initialForm with plan := "12-Month (₹1999)", withDiagrams := true } = 2399 := by
  decide

/-- C2 (counterexample): `"toString"` is not one of the four recognized plan
keys, yet `PLAN_PRICES["toString"]` hits the inherited
`Object.prototype.toString` — a non-nullish value — so the `?? 199` fallback
never fires and the quote is neither 199 (diagrams off) nor 239
(diagrams on), refuting the claim's universal fallback. -/
theorem C2_proto_key_counterexample :
    ("toString" ∉ ["Single (₹199)", "3-Month (₹499)", "6-Month (₹999)",
        "12-Month (₹1999)"]) ∧
    basePriceJS "toString" = .protoMember ∧
    estimatedPriceJS { initialForm with plan := "toString" } ≠ .num 199 ∧
    estimatedPriceJS { initialForm with plan := "toString", withDiagrams := true } ≠
      .num 239 := by
  decide

/-- C2 (amended): for every plan key that is neither one of the four
recognized keys nor an `Object.prototype` property name, the bracket access
reads `undefined`, the `?? 199` fallback fires, and the quote is 199 without
diagrams and 239 with. -/
theorem C2_fallback_amended (f : FormState)
    (h : f.plan ∉ ["Single (₹199)", "3-Month (₹499)", "6-Month (₹999)", "12-Month (₹1999)"])
    (hproto : f.plan ∉ protoProps) :
    estimatedPriceJS f = if f.withDiagrams then .num 239 else .num 199 := by
  simp only [List.mem_cons, List.not_mem_nil, or_false, not_or] at h
  obtain ⟨h1, h2, h3, h4⟩ := h
  have e1 : (f.plan == "Single (₹199)") = false := beq_eq_false_iff_ne.mpr h1
  have e2 : (f.plan == "3-Month (₹499)") = false := beq_eq_false_iff_ne.mpr h2
  have e3 : (f.plan == "6-Month (₹999)") = false := beq_eq_false_iff_ne.mpr h3
  have e4 : (f.plan == "12-Month (₹1999)") = false := beq_eq_false_iff_ne.mpr h4
  have hl : PLAN_PRICES.lookup f.plan = none := by
    simp [PLAN_PRICES, List.lookup, e1, e2, e3, e4]
  simp [estimatedPriceJS, basePriceJS, hl, hproto, roundMul1_2]

theorem C2_fallback_amended_witness :
    estimatedPriceJS { initialForm with plan := "Premium" } =
      if ({ initialForm with plan := "Premium" } : FormState).withDiagrams then
        JSVal.num 239
      else JSVal.num 199 :=
  C2_fallback_amended { initialForm with plan := "Premium" } (by decide) (by decide)

/-- Off the `Object.prototype` names, the own-property model used by the
other claims agrees with the full JS property-access model. -/
theorem estimatedPriceJS_agrees (f : FormState) (h : f.plan ∉ protoProps) :
    estimatedPriceJS f = .num (estimatedPrice f) := by
  cases hw : f.withDiagrams <;> cases hl : PLAN_PRICES.lookup f.plan <;>
    simp [estimatedPriceJS, basePriceJS, estimatedPrice, hl, hw, h]

set_option maxRecDepth 8192 in
/-- C3 (evaluation at the failing input): `handleSubmit` interpolates the raw
field values into the `?text=` query without percent-encoding, so two
different pre-encoding messages (name `A%41` versus name `AA`) percent-decode
to the same text — decoding cannot reconstruct the pre-encoding message — and
a name containing a space is embedded with the raw space, not `%20`. -/
theorem C3_raw_interpolation_breaks_roundtrip :
    buildMsg formPct ≠ buildMsg formAA ∧
    percentDecode (buildMsg formPct) = percentDecode (buildMsg formAA) ∧
    occursIn "👤 Name: a b%0A" (buildMsg formSpace) = true := by
  decide

/-- C4 (counterexample): a pages value of positive infinity is not a finite
number, yet `validateForm` reports no pages error, because the source tests
`Number.isNaN(form.pages) || form.pages < 1` and `Infinity` satisfies
neither. -/
theorem C4_pages_error_counterexample :
    (validateForm infForm).pages = none ∧ infForm.pages.isFinite = false := by
  decide

/-- C4 (amended): validation reports "Pages must be at least 1." exactly when
the pages value is `NaN` or compares less than 1 under JS ordering; `NaN` and
negative infinity produce the error, positive infinity does not. -/
theorem C4_pages_error_amended (f : FormState) :
    (validateForm f).pages = some "Pages must be at least 1." ↔
      (f.pages.isNaN = true ∨ f.pages.lt (.int 1) = true) := by
  simp only [validateForm]
  cases hb : f.pages.isNaN || f.pages.lt (.int 1) with
  | false =>
      rw [Bool.or_eq_false_iff] at hb
      simp [hb.1, hb.2]
  | true =>
      rw [Bool.or_eq_true] at hb
      simp [hb]

/-- C5: the name error is reported exactly when the trimmed name is empty, the
phone error exactly when the trimmed phone is not ten ASCII decimal digits
(so an 11-digit phone errors), and the input
`{name:"", phone:"123", pages:0}` populates all three error keys with their
exact literal messages. -/
theorem C5_name_phone_validation (f : FormState) :
    ((validateForm f).name = some "Name is required." ↔ jsTrim f.name = "") ∧
    ((validateForm f).phone = some "Enter a valid 10-digit phone." ↔
      ¬((jsTrim f.phone).data.length = 10 ∧
        ∀ c ∈ (jsTrim f.phone).data, c.isDigit = true)) ∧
    validateForm { initialForm with phone := "123", pages := .int 0 } =
      { name := some "Name is required."
        phone := some "Enter a valid 10-digit phone."
        pages := some "Pages must be at least 1." } ∧
    (validateForm { initialForm with name := "X", phone := "98765432100" }).phone =
      some "Enter a valid 10-digit phone." := by
  refine ⟨?_, ?_, by decide, by decide⟩
  · by_cases h : jsTrim f.name = "" <;> simp [validateForm, h]
  · by_cases h : isTenDigits (jsTrim f.phone) = true
    · simp only [validateForm, h, if_true]
      simp only [isTenDigits, Bool.and_eq_true, beq_iff_eq, List.all_eq_true] at h
      exact ⟨fun hc => absurd hc (by simp), fun hneg => absurd ⟨h.1, h.2⟩ hneg⟩
    · simp only [validateForm, h, if_false]
      simp only [isTenDigits, Bool.and_eq_true, beq_iff_eq, List.all_eq_true] at h
      exact iff_of_true rfl h

/-- C7: the quote is a pure function of the pair (plan, withDiagrams): any two
form states agreeing on those two fields yield the same quote. -/
theorem C7_quote_pure_in_plan_diagrams (f g : FormState)
    (hplan : f.plan = g.plan) (hd : f.withDiagrams = g.withDiagrams) :
    estimatedPrice f = estimatedPrice g := by
  simp [estimatedPrice, hplan, hd]

theorem C7_quote_pure_in_plan_diagrams_witness :
    estimatedPrice asha =
      estimatedPrice { asha with name := "Someone Else", phone := "0000000000",
                                 pages := .int 99, file := some "notes.pdf",
                                 notes := "urgent", address := "Elsewhere" } :=
  C7_quote_pure_in_plan_diagrams _ _ rfl rfl

set_option maxRecDepth 8192 in
/-- C8: on the end-to-end scenario form (Asha, 6-Month plan, diagrams on) the
quote is 1199, the message carries the diagrams-affirmative line with its
"+20%" markup text, and the file-reference line is the "None selected"
variant pointing the user to the chat. -/
theorem C8_asha_scenario :
    estimatedPrice asha = 1199 ∧
    occursIn "🎨 Diagrams/Printouts: YES (+20% markup included)" (buildMsg asha) = true ∧
    occursIn "📎 File: None selected. *Please upload your syllabus/content in our chat.*"
      (buildMsg asha) = true := by
  decide

/-- C9: when validation fails, `handleSubmit` only stores the freshly
computed error record — it does not enter the submitting state and does not
construct or open the deep link (and, being a total function, raises no
exception). -/
theorem C9_failed_validation_blocks_submit (s : AppState)
    (h : (validateForm s.form).isEmpty = false) :
    handleSubmit s = { s with errors := validateForm s.form } := by
  simp [handleSubmit, h]

theorem C9_failed_validation_blocks_submit_witness :
    handleSubmit badState = { badState with errors := validateForm badState.form } :=
  C9_failed_validation_blocks_submit badState (by decide)

theorem orDash_empty : orDash "" = "—" := rfl






set_option maxRecDepth 16384 in
/-- C6: for every form, the built message carries all fourteen fixed lines in
their fixed order, and every optional field that is empty is rendered as the
em-dash placeholder instead of its line being dropped. -/
theorem C6_message_fixed_lines (f : FormState) :
    ContainsInOrder fixedLines (buildMsg f) ∧
    (f.address = "" → HasSub "🏠 Address: —%0A" (buildMsg f)) ∧
    (f.college = "" → HasSub "🏫 College: —%0A" (buildMsg f)) ∧
    (f.className = "" → HasSub "📚 Class: —%0A" (buildMsg f)) ∧
    (f.subject = "" → HasSub "📘 Subject: —%0A" (buildMsg f)) ∧
    (f.notes = "" → HasSub "📝 Notes: —%0A" (buildMsg f)) := by
  refine ⟨?_, ?_, ?_, ?_, ?_, ?_⟩
  · refine ⟨["", "%0A%0A", f.name ++ "%0A", f.phone ++ "%0A ",
      orDash f.address ++ "%0A ", orDash f.college ++ "%0A",
      orDash f.className ++ "%0A", orDash f.subject ++ "%0A",
      f.pages.render ++ "%0A", diagramsMsg f ++ "%0A", f.plan ++ "%0A",
      orDash f.notes ++ "%0A", toString (estimatedPrice f) ++ "%0A%0A",
      fileRest f ++ "%0A%0A", ""], rfl, ?_⟩
    apply String.ext
    simp only [glue, fixedLines, buildMsg, fileMsg_data, String.data_append,
      sd_nil, List.append_assoc, List.cons_append, List.nil_append,
      List.append_nil]
  · intro h
    refine ⟨"*NotebookComplete Order*%0A%0A" ++ "👤 Name: " ++ f.name ++
        "%0A📞 Phone: " ++ f.phone ++ "%0A ",
      " 🏫 College: " ++ orDash f.college ++ "%0A📚 Class: " ++
        orDash f.className ++ "%0A📘 Subject: " ++ orDash f.subject ++
        "%0A📄 Pages: " ++ f.pages.render ++ "%0A🎨 Diagrams/Printouts: " ++
        diagramsMsg f ++ "%0A💰 Plan: " ++ f.plan ++ "%0A📝 Notes: " ++
        orDash f.notes ++ "%0A💵 Estimated Price: ₹" ++
        toString (estimatedPrice f) ++ "%0A%0A" ++ fileMsg f ++ "%0A%0A" ++
        "Please confirm availability and final quote.", ?_⟩
    apply String.ext
    simp only [buildMsg, h, orDash_empty, String.data_append,
      List.append_assoc, List.cons_append, List.nil_append]
  · intro h
    refine ⟨"*NotebookComplete Order*%0A%0A" ++ "👤 Name: " ++ f.name ++
        "%0A📞 Phone: " ++ f.phone ++ "%0A 🏠 Address: " ++ orDash f.address ++
        "%0A ",
      "📚 Class: " ++ orDash f.className ++ "%0A📘 Subject: " ++
        orDash f.subject ++ "%0A📄 Pages: " ++ f.pages.render ++
        "%0A🎨 Diagrams/Printouts: " ++ diagramsMsg f ++ "%0A💰 Plan: " ++
        f.plan ++ "%0A📝 Notes: " ++ orDash f.notes ++
        "%0A💵 Estimated Price: ₹" ++ toString (estimatedPrice f) ++
        "%0A%0A" ++ fileMsg f ++ "%0A%0A" ++
        "Please confirm availability and final quote.", ?_⟩
    apply String.ext
    simp only [buildMsg, h, orDash_empty, String.data_append,
      List.append_assoc, List.cons_append, List.nil_append]
  · intro h
    refine ⟨"*NotebookComplete Order*%0A%0A" ++ "👤 Name: " ++ f.name ++
        "%0A📞 Phone: " ++ f.phone ++ "%0A 🏠 Address: " ++ orDash f.address ++
        "%0A 🏫 College: " ++ orDash f.college ++ "%0A",
      "📘 Subject: " ++ orDash f.subject ++ "%0A📄 Pages: " ++
        f.pages.render ++ "%0A🎨 Diagrams/Printouts: " ++ diagramsMsg f ++
        "%0A💰 Plan: " ++ f.plan ++ "%0A📝 Notes: " ++ orDash f.notes ++
        "%0A💵 Estimated Price: ₹" ++ toString (estimatedPrice f) ++
        "%0A%0A" ++ fileMsg f ++ "%0A%0A" ++
        "Please confirm availability and final quote.", ?_⟩
    apply String.ext
    simp only [buildMsg, h, orDash_empty, String.data_append,
      List.append_assoc, List.cons_append, List.nil_append]
  · intro h
    refine ⟨"*NotebookComplete Order*%0A%0A" ++ "👤 Name: " ++ f.name ++
        "%0A📞 Phone: " ++ f.phone ++ "%0A 🏠 Address: " ++ orDash f.address ++
        "%0A 🏫 College: " ++ orDash f.college ++ "%0A📚 Class: " ++
        orDash f.className ++ "%0A",
      "📄 Pages: " ++ f.pages.render ++ "%0A🎨 Diagrams/Printouts: " ++
        diagramsMsg f ++ "%0A💰 Plan: " ++ f.plan ++ "%0A📝 Notes: " ++
        orDash f.notes ++ "%0A💵 Estimated Price: ₹" ++
        toString (estimatedPrice f) ++ "%0A%0A" ++ fileMsg f ++ "%0A%0A" ++
        "Please confirm availability and final quote.", ?_⟩
    apply String.ext
    simp only [buildMsg, h, orDash_empty, String.data_append,
      List.append_assoc, List.cons_append, List.nil_append]
  · intro h
    refine ⟨"*NotebookComplete Order*%0A%0A" ++ "👤 Name: " ++ f.name ++
        "%0A📞 Phone: " ++ f.phone ++ "%0A 🏠 Address: " ++ orDash f.address ++
        "%0A 🏫 College: " ++ orDash f.college ++ "%0A📚 Class: " ++
        orDash f.className ++ "%0A📘 Subject: " ++ orDash f.subject ++
        "%0A📄 Pages: " ++ f.pages.render ++ "%0A🎨 Diagrams/Printouts: " ++
        diagramsMsg f ++ "%0A💰 Plan: " ++ f.plan ++ "%0A",
      "💵 Estimated Price: ₹" ++ toString (estimatedPrice f) ++ "%0A%0A" ++
        fileMsg f ++ "%0A%0A" ++
        "Please confirm availability and final quote.", ?_⟩
    apply String.ext
    simp only [buildMsg, h, orDash_empty, String.data_append,
      List.append_assoc, List.cons_append, List.nil_append]

theorem C6_message_fixed_lines_witness :
    HasSub "🏠 Address: —%0A" (buildMsg initialForm) ∧
    HasSub "🏫 College: —%0A" (buildMsg initialForm) ∧
    HasSub "📚 Class: —%0A" (buildMsg initialForm) ∧
    HasSub "📘 Subject: —%0A" (buildMsg initialForm) ∧
    HasSub "📝 Notes: —%0A" (buildMsg initialForm) :=
  ⟨(C6_message_fixed_lines initialForm).2.1 rfl,
   (C6_message_fixed_lines initialForm).2.2.1 rfl,
   (C6_message_fixed_lines initialForm).2.2.2.1 rfl,
   (C6_message_fixed_lines initialForm).2.2.2.2.1 rfl,
   (C6_message_fixed_lines initialForm).2.2.2.2.2 rfl⟩

set_option maxRecDepth 16384 in
/-- C10: validation inspects the trimmed name and phone while the message
embeds the raw values: wrapping name and phone in whitespace leaves the
validation result unchanged, yet the message carries the padded name
verbatim; concretely, the Asha form and its whitespace-padded variant both
validate while their messages differ. -/
theorem C10_untrimmed_serialization (f : FormState) (p s : String)
    (hp : ∀ c ∈ p.data, isJSWS c = true) (hs : ∀ c ∈ s.data, isJSWS c = true) :
    validateForm (padForm f p s) = validateForm f ∧
    HasSub ("👤 Name: " ++ (p ++ f.name ++ s) ++ "%0A")
      (buildMsg (padForm f p s)) ∧
    ((validateForm (padForm asha " " " ")).isEmpty = true ∧
      (validateForm asha).isEmpty = true ∧
      buildMsg (padForm asha " " " ") ≠ buildMsg asha) := by
  refine ⟨?_, ?_, by decide, by decide, by decide⟩
  · have hn := jsTrim_pad f.name p s hp hs
    have hph := jsTrim_pad f.phone p s hp hs
    simp [validateForm, padForm, hn, hph]
  · refine ⟨"*NotebookComplete Order*%0A%0A",
      "📞 Phone: " ++ (p ++ f.phone ++ s) ++ "%0A 🏠 Address: " ++
        orDash f.address ++ "%0A 🏫 College: " ++ orDash f.college ++
        "%0A📚 Class: " ++ orDash f.className ++ "%0A📘 Subject: " ++
        orDash f.subject ++ "%0A📄 Pages: " ++ f.pages.render ++
        "%0A🎨 Diagrams/Printouts: " ++ diagramsMsg (padForm f p s) ++
        "%0A💰 Plan: " ++ f.plan ++ "%0A📝 Notes: " ++ orDash f.notes ++
        "%0A💵 Estimated Price: ₹" ++
        toString (estimatedPrice (padForm f p s)) ++ "%0A%0A" ++
        fileMsg (padForm f p s) ++ "%0A%0A" ++
        "Please confirm availability and final quote.", ?_⟩
    apply String.ext
    simp only [buildMsg, padForm, String.data_append,
      List.append_assoc, List.cons_append, List.nil_append]

theorem C10_untrimmed_serialization_witness :
    validateForm (padForm asha " " " ") = validateForm asha ∧
    HasSub ("👤 Name: " ++ (" " ++ asha.name ++ " ") ++ "%0A")
      (buildMsg (padForm asha " " " ")) ∧
    ((validateForm (padForm asha " " " ")).isEmpty = true ∧
      (validateForm asha).isEmpty = true ∧
      buildMsg (padForm asha " " " ") ≠ buildMsg asha) :=
  C10_untrimmed_serialization asha " " " " (by decide) (by decide)

end NotebookApp
